import Mathlib

set_option maxRecDepth 8192

/-!
Shallow embedding of the ascend-docker-cli prestart hook
(`src/cli/src/main.c`) and of the DCMI dynamic-binding wrapper
(`src/runtime/dcmi/dcmi_interface_api.h`).

Pure argument-validation logic is translated directly.  Calls into the
OS (realpath, fopen of pid_max, namespace/cgroup syscalls, dlopen/dlsym)
are modelled as explicit oracle parameters recording the outcome of each
external call; the control flow around those outcomes is translated from
the source.  C strings are modelled as Lean `String`s of their
characters (all inputs of interest are ASCII, so character count equals
byte count); machine integers are `Nat`/`Int` with explicit wrap-around
where the source truncates.
-/

namespace AscendHook

/-- Linux PATH_MAX, used by the source via limits.h. -/
def PATH_MAX : Nat := 4096

/-- Modelled from the spec: BUF_SIZE is the fixed maximum field size from
basic.h, which is not under src/; the spec only says fields use fixed
maximum sizes, so the value is fixed here at 1024.  No claim depends on
the exact value. -/
def BUF_SIZE : Nat := 1024

/-- Modelled from the spec: MAX_MOUNT_NR, the fixed capacity of a
MountList, is declared in a header not under src/; the spec says the
lists are bounded.  No claim depends on the exact value. -/
def MAX_MOUNT_NR : Nat := 64

/-- Modelled from the spec: the device-id list capacity (capacity N,
e.g. 64, per the ResolvedConfig description of the spec); the defining header
is not under src/.  No claim depends on the exact value. -/
def MAX_DEVICE_NR : Nat := 64

/-- ULONG_MAX on the LP64 targets this hook is built for (64-bit
unsigned long). -/
def ULONG_MAX : Nat := 2 ^ 64 - 1

/-- LONG_MAX on LP64. -/
def LONG_MAX : Int := 2 ^ 63 - 1

/-- LONG_MIN on LP64. -/
def LONG_MIN : Int := -(2 ^ 63)

/-- Modulus for truncation from unsigned long to unsigned int. -/
def UINT_MOD : Nat := 2 ^ 32

/-- The errno value ENOENT. -/
def ENOENT : Nat := 2

/-- Numeric value of a digit string (most significant first). -/
def natOfDigits (cs : List Char) : Nat :=
  cs.foldl (fun a c => a * 10 + (c.toNat - 48)) 0

/-- strtoul with base 10 on a token: value of the maximal leading digit
run, clamped to ULONG_MAX, together with the ERANGE flag.  (The inputs
reaching it here never carry leading whitespace or signs, which are
therefore not modelled.) -/
def strtoul10 (t : String) : Nat × Bool :=
  let v := natOfDigits (t.data.takeWhile Char.isDigit)
  if v > ULONG_MAX then (ULONG_MAX, true) else (v, false)

/-- Truncation of a mathematical integer to a 32-bit signed int (two-complement wrap), as happens when the source assigns a long to an int field. -/
def toInt32 (v : Int) : Int := (v + 2 ^ 31) % 2 ^ 32 - 2 ^ 31

/-- strtol with base 10: optional sign, maximal digit run, clamped to
the long range with the ERANGE flag. -/
def strtol10 (s : String) : Int × Bool :=
  let core : Int × List Char :=
    match s.data with
    | '-' :: cs => (-1, cs)
    | '+' :: cs => (1, cs)
    | cs => (1, cs)
  let v : Int := core.1 * (natOfDigits (core.2.takeWhile Char.isDigit) : Int)
  if v > LONG_MAX then (LONG_MAX, true)
  else if v < LONG_MIN then (LONG_MIN, true)
  else (v, false)

/-- The raw invocation record, struct CmdArgs of main.c.  The two
MountLists are modelled as lists of path strings whose length is the
explicit count field. -/
structure CmdArgs where
  devices : String
  rootfs : String
  pid : Int
  options : String
  files : List String
  dirs : List String
deriving Repr, DecidableEq

/-- The zero-initialised CmdArgs of Process. -/
def emptyCmdArgs : CmdArgs := ⟨"", "", 0, "", [], []⟩

/-- Character admissible in a devices string: decimal digit or the comma
separator (the loop of DevicesCmdArgParser). -/
def isDevChar (c : Char) : Bool := c.isDigit || c == ','

/-- DevicesCmdArgParser of main.c: every character must be a digit or a
comma, then the string is copied into the devices buffer with strcpy_s
(which fails, clearing the destination, when the source does not fit in
BUF_SIZE). -/
def DevicesCmdArgParser (args : CmdArgs) (arg : String) : CmdArgs × Bool :=
  if ¬ arg.data.all isDevChar then (args, false)
  else if arg.length ≥ BUF_SIZE then ({args with devices := ""}, false)
  else ({args with devices := arg}, true)

/-- The compiled-in mount whitelist of CheckWhiteList (WHITE_LIST_NUM =
4 entries). -/
def mountWhiteList : List String :=
  ["/usr/local/Ascend/driver/lib64",
   "/usr/local/Ascend/driver/include",
   "/usr/local/dcmi",
   "/usr/local/bin/npu-smi"]

/-- CheckWhiteList of main.c: exact strcmp against each whitelist
entry. -/
def CheckWhiteList (fileName : String) : Bool :=
  mountWhiteList.any (fun w => w == fileName)

/-- Modelled from the spec: IsValidChar lives in utils.c, which is not
under src/; the conservative allowed set of the spec is alphanumerics, `/`,
`.`, `_`, `-`. -/
def IsValidChar (c : Char) : Bool :=
  c.isAlphanum || c == '/' || c == '.' || c == '_' || c == '-'

/-- Outcome of one realpath(3) call: either it returned non-NULL with
the resolved string, or it returned NULL with the given errno while
leaving the given contents in the caller buffer (glibc resolves
component by component, so when only the final component is missing the
buffer holds the full canonicalised path including that component). -/
inductive RealpathOutcome where
  | ok (resolved : String)
  | fail (eno : Nat) (buf : String)
deriving Repr, DecidableEq

/-- CheckFileLegality of main.c over a realpath oracle: length bounds,
character whitelist, then realpath; a NULL return with errno other than
ENOENT rejects, and finally the buffer left by realpath must compare
strcmp-equal to the input. -/
def CheckFileLegality (rp : String → RealpathOutcome) (filePath : String) : Bool :=
  if filePath.length > PATH_MAX || filePath.length == 0 then false
  else if ¬ filePath.data.all IsValidChar then false
  else
    match rp filePath with
    | .ok resolved => resolved == filePath
    | .fail eno buf => if eno ≠ ENOENT then false else buf == filePath

/-- RootfsCmdArgParser of main.c: copy into the rootfs buffer, then
CheckFileLegality (no whitelist requirement). -/
def RootfsCmdArgParser (rp : String → RealpathOutcome) (args : CmdArgs) (arg : String) :
    CmdArgs × Bool :=
  if arg.length ≥ BUF_SIZE then ({args with rootfs := ""}, false)
  else
    let args' := {args with rootfs := arg}
    (args', CheckFileLegality rp arg)

/-- OptionsCmdArgParser of main.c: copy, then exact match against the
three admissible option strings. -/
def OptionsCmdArgParser (args : CmdArgs) (arg : String) : CmdArgs × Bool :=
  if arg.length ≥ BUF_SIZE then ({args with options := ""}, false)
  else ({args with options := arg},
        arg == "NODRV,VIRTUAL" || arg == "NODRV" || arg == "VIRTUAL")

/-- MountFileCmdArgParser of main.c: reject when the file list already
holds MAX_MOUNT_NR entries; otherwise the count is incremented and the
path copied into the new slot (an empty slot remains when strcpy_s
fails), then CheckFileLegality and CheckWhiteList must both pass. -/
def MountFileCmdArgParser (rp : String → RealpathOutcome) (args : CmdArgs) (arg : String) :
    CmdArgs × Bool :=
  if args.files.length = MAX_MOUNT_NR then (args, false)
  else if arg.length ≥ PATH_MAX then ({args with files := args.files ++ [""]}, false)
  else if ¬ CheckFileLegality rp arg then ({args with files := args.files ++ [arg]}, false)
  else ({args with files := args.files ++ [arg]}, CheckWhiteList arg)

/-- MountDirCmdArgParser of main.c: same shape as the file parser, on
the dirs list. -/
def MountDirCmdArgParser (rp : String → RealpathOutcome) (args : CmdArgs) (arg : String) :
    CmdArgs × Bool :=
  if args.dirs.length = MAX_MOUNT_NR then (args, false)
  else if arg.length ≥ PATH_MAX then ({args with dirs := args.dirs ++ [""]}, false)
  else if ¬ CheckFileLegality rp arg then ({args with dirs := args.dirs ++ [arg]}, false)
  else ({args with dirs := args.dirs ++ [arg]}, CheckWhiteList arg)

/-- Outcomes of the external calls made while parsing arguments:
the realpath oracle, the CheckExternalFile check on /proc/sys/kernel/
pid_max, and the fopen/fgets read of that file (none models either call
failing). -/
structure ArgWorld where
  rp : String → RealpathOutcome
  checkExternalOk : Bool
  pidMaxRead : Option String

/-- Trailing-newline strip performed by PidCmdArgParser on the pid_max
buffer: when the buffer is nonempty and its last character is a newline,
that character is replaced by the terminator. -/
def stripNewline (s : String) : String :=
  match s.data.getLast? with
  | some '\n' => String.mk s.data.dropLast
  | _ => s

/-- PidCmdArgParser of main.c: strtol the argument into the int pid
field, check the pid_max file, read its first line, require every
character of the (newline-stripped) buffer to be a digit, require
0 ≤ pid < strtol(buffer), and finally fail if strtol of the argument
had set errno. -/
def PidCmdArgParser (w : ArgWorld) (args : CmdArgs) (arg : String) : CmdArgs × Bool :=
  if ¬ w.checkExternalOk then ({args with pid := toInt32 (strtol10 arg).1}, false)
  else
    match w.pidMaxRead with
    | none => ({args with pid := toInt32 (strtol10 arg).1}, false)
    | some raw =>
      if ¬ (stripNewline raw).data.all Char.isDigit then
        ({args with pid := toInt32 (strtol10 arg).1}, false)
      else if toInt32 (strtol10 arg).1 < 0 ∨
          toInt32 (strtol10 arg).1 ≥ (strtol10 (stripNewline raw)).1 then
        ({args with pid := toInt32 (strtol10 arg).1}, false)
      else if (strtol10 arg).2 then ({args with pid := toInt32 (strtol10 arg).1}, false)
      else ({args with pid := toInt32 (strtol10 arg).1}, true)

/-- IsCmdArgsValid of main.c. -/
def IsCmdArgsValid (args : CmdArgs) : Bool :=
  args.devices.length > 0 && args.rootfs.length > 0 && args.pid > 0

/-- Splitter over the character list: accumulates the current token
(reversed) and emits it at each separator or at the end, dropping empty
tokens exactly as strtok does. -/
def tokSplit : List Char → List Char → List String
  | [], acc => if acc.isEmpty then [] else [String.mk acc.reverse]
  | c :: cs, acc =>
    if c == ',' then
      if acc.isEmpty then tokSplit cs []
      else String.mk acc.reverse :: tokSplit cs []
    else tokSplit cs (c :: acc)

/-- Token list produced by repeated strtok_s with separator "," :
maximal nonempty runs of non-separator characters. -/
def strtokTokens (s : String) : List String :=
  tokSplit s.data []

/-- Whether an original buffer character at the previous position was a
token character (used to locate the separator that terminates each
token). -/
def isTokChar : Option Char → Bool
  | some c => !(c == ',')
  | none => false

/-- In-place effect of the first n strtok_s calls on the buffer: each
call that returns a token overwrites the separator terminating that
token (when one exists) with NUL; scanning left to right, those
terminators are exactly the separators immediately preceded by a
non-separator character. -/
def strtokWrites : Nat → Option Char → List Char → List Char
  | _, _, [] => []
  | 0, _, l => l
  | n + 1, prev, c :: cs =>
    if c == ',' && isTokChar prev then
      '\x00' :: strtokWrites n (some c) cs
    else
      c :: strtokWrites (n + 1) (some c) cs

/-- Loop body of ParseDeviceIDs over the token sequence: capacity check
against the running index before each token, strtoul with errno check,
store truncated to unsigned int.  Also returns how many tokens were
consumed (i.e. how many strtok_s calls returned a token), which
determines how far the in-place mutation progressed. -/
def parseDeviceLoop (cap : Nat) : List String → Nat → Option (List Nat) × Nat
  | [], _ => (some [], 0)
  | t :: ts, idx =>
    if idx ≥ cap then (none, 1)
    else if (strtoul10 t).2 then (none, 1)
    else
      match parseDeviceLoop cap ts (idx + 1) with
      | (none, k) => (none, k + 1)
      | (some vs, k) => (some ((strtoul10 t).1 % UINT_MOD :: vs), k + 1)

/-- ParseDeviceIDs of main.c: strtok_s tokenisation of the devices
buffer with per-token strtoul, plus the resulting in-place mutation of
the buffer. -/
def ParseDeviceIDs (cap : Nat) (devices : String) : Option (List Nat) × String :=
  ((parseDeviceLoop cap (strtokTokens devices) 0).1,
   String.mk (strtokWrites (parseDeviceLoop cap (strtokTokens devices) 0).2 none devices.data))

/-- The ParsedConfig record populated by DoPrepare. -/
structure ParsedConfig where
  rootfs : String
  devices : List Nat
  containerNsPath : String
  cgroupPath : String
  originNsFd : Int
  files : List String
  dirs : List String
deriving Repr, DecidableEq

/-- Outcomes of the external calls made by DoPrepare: GetNsPath,
GetCgroupPath, GetSelfNsPath and the open(2) of the own namespace
file of the caller (none models the call failing). -/
structure PrepareWorld where
  nsPath : Option String
  cgroupPath : Option String
  selfNsPath : Option String
  openFd : Option Int

/-- DoPrepare of main.c: copy the rootfs, parse the device ids out of
the devices buffer (strtok_s mutates that buffer in place through the
cast-away const), resolve the mount-namespace and cgroup paths of the
container, resolve and open the own namespace file of the caller, and borrow the
mount lists.  Returns the config on success together with the CmdArgs
as left in memory by the call. -/
def DoPrepare (w : PrepareWorld) (args : CmdArgs) : Option ParsedConfig × CmdArgs :=
  if args.rootfs.length ≥ BUF_SIZE then (none, args)
  else
    match (ParseDeviceIDs MAX_DEVICE_NR args.devices).1,
        w.nsPath, w.cgroupPath, w.selfNsPath, w.openFd with
    | some ids, some nsp, some cgp, some _, some fd =>
      (some ⟨args.rootfs, ids, nsp, cgp, fd, args.files, args.dirs⟩,
       {args with devices := (ParseDeviceIDs MAX_DEVICE_NR args.devices).2})
    | _, _, _, _, _ =>
      (none, {args with devices := (ParseDeviceIDs MAX_DEVICE_NR args.devices).2})

/-- Observable privileged actions attempted by SetupContainer, in
order: the setns into the container mount namespace, the mounting
step, the cgroup step, the setns back to the original namespace, and
the close of the saved original-namespace descriptor. -/
inductive Action where
  | enterContainerNs
  | doMounting
  | setupCgroup
  | restoreNs
  | closeOriginFd
deriving Repr, DecidableEq

/-- Outcomes of the external calls made by SetupContainer: the
preparation oracles plus success of EnterNsByPath, DoMounting,
SetupCgroup and the restoring EnterNsByFd. -/
structure SetupWorld where
  prep : PrepareWorld
  enterNsOk : Bool
  mountOk : Bool
  cgroupOk : Bool
  restoreOk : Bool

/-- SetupContainer of main.c: DoPrepare, then enter the container
mount namespace, mount, configure the cgroup, switch back, closing the
saved descriptor on every path past a successful DoPrepare.  Returns
the exit result, the sequence of privileged actions attempted, and the
CmdArgs as left in memory. -/
def SetupContainer (w : SetupWorld) (args : CmdArgs) : Int × List Action × CmdArgs :=
  match (DoPrepare w.prep args).1 with
  | none => (-1, [], (DoPrepare w.prep args).2)
  | some _ =>
    if ¬ w.enterNsOk then
      (-1, [.enterContainerNs, .closeOriginFd], (DoPrepare w.prep args).2)
    else if ¬ w.mountOk then
      (-1, [.enterContainerNs, .doMounting, .closeOriginFd], (DoPrepare w.prep args).2)
    else if ¬ w.cgroupOk then
      (-1, [.enterContainerNs, .doMounting, .setupCgroup, .closeOriginFd],
       (DoPrepare w.prep args).2)
    else if ¬ w.restoreOk then
      (-1, [.enterContainerNs, .doMounting, .setupCgroup, .restoreNs, .closeOriginFd],
       (DoPrepare w.prep args).2)
    else
      (0, [.enterContainerNs, .doMounting, .setupCgroup, .restoreNs, .closeOriginFd],
       (DoPrepare w.prep args).2)

/-- The option letters of the getopt table of main.c. -/
inductive ArgKind where
  | dOpt | pOpt | rOpt | oOpt | fOpt | iOpt
deriving Repr, DecidableEq

/-- ParseOneCmdArg of main.c: dispatch to the parser registered for the
indicator character. -/
def ParseOneCmdArg (w : ArgWorld) (args : CmdArgs) (k : ArgKind) (v : String) :
    CmdArgs × Bool :=
  match k with
  | .dOpt => DevicesCmdArgParser args v
  | .pOpt => PidCmdArgParser w args v
  | .rOpt => RootfsCmdArgParser w.rp args v
  | .oOpt => OptionsCmdArgParser args v
  | .fOpt => MountFileCmdArgParser w.rp args v
  | .iOpt => MountDirCmdArgParser w.rp args v

/-- The getopt loop of Process: parse each supplied argument in order,
stopping with -1 on the first parser failure. -/
def processArgs (w : ArgWorld) : CmdArgs → List (ArgKind × String) → CmdArgs × Int
  | args, [] => (args, 0)
  | args, (k, v) :: rest =>
    if (ParseOneCmdArg w args k v).2 then processArgs w (ParseOneCmdArg w args k v).1 rest
    else ((ParseOneCmdArg w args k v).1, -1)

/-- Process of main.c: parse all arguments, check IsCmdArgsValid, then
SetupContainer.  (ParseRuntimeOptions only records option flags and is
not modelled.)  Returns the exit result and the privileged actions
attempted. -/
def Process (w : ArgWorld) (sw : SetupWorld) (argv : List (ArgKind × String)) :
    Int × List Action :=
  if (processArgs w emptyCmdArgs argv).2 < 0 then (-1, [])
  else if ¬ IsCmdArgsValid (processArgs w emptyCmdArgs argv).1 then (-1, [])
  else ((SetupContainer sw (processArgs w emptyCmdArgs argv).1).1,
        (SetupContainer sw (processArgs w emptyCmdArgs argv).1).2.1)

/-! DCMI dynamic-binding wrapper, from src/runtime/dcmi/dcmi_interface_api.h. -/

/-- Error code SO_NOT_FOUND of the DCMI wrapper. -/
def SO_NOT_FOUND : Int := -99999

/-- Error code FUNCTION_NOT_FOUND of the DCMI wrapper. -/
def FUNCTION_NOT_FOUND : Int := -99998

/-- Success code of the DCMI wrapper. -/
def DCMI_SUCCESS : Int := 0

/-- Error code SO_NOT_CORRECT of the DCMI wrapper. -/
def SO_NOT_CORRECT : Int := -99996

/-- The mutable global state of the wrapper translation unit: the
dlopen handle and the seven function pointers, each none when
unresolved (their initial state, and the state dlsym leaves on
failure).  Resolved functions are modelled by their status-returning
behaviour on the value arguments; out-parameters, which do not affect
the control flow verified here, are elided. -/
structure DcmiState where
  dcmiHandle : Option String
  dcmi_init_func : Option (Unit → Int)
  dcmi_get_card_num_list_func : Option (Int → Int)
  dcmi_get_device_num_in_card_func : Option (Int → Int)
  dcmi_get_device_logic_id_func : Option (Int → Int → Int)
  dcmi_create_vdevice_func : Option (Int → Int → Int)
  dcmi_set_destroy_vdevice_func : Option (Int → Int → Nat → Int)
  dcmi_get_device_logicid_from_phyid_func : Option (Nat → Int)

/-- The state of the wrapper globals at program start: nothing loaded,
every pointer NULL. -/
def initialDcmiState : DcmiState :=
  ⟨none, none, none, none, none, none, none, none⟩

/-- Wrapper dcmi_init: CALL_FUNC returns FUNCTION_NOT_FOUND when the
pointer is NULL, otherwise forwards the call. -/
def dcmi_init (s : DcmiState) : Int :=
  match s.dcmi_init_func with
  | none => FUNCTION_NOT_FOUND
  | some f => f ()

/-- Wrapper dcmi_get_card_num_list via CALL_FUNC. -/
def dcmi_get_card_num_list (s : DcmiState) (list_length : Int) : Int :=
  match s.dcmi_get_card_num_list_func with
  | none => FUNCTION_NOT_FOUND
  | some f => f list_length

/-- Wrapper dcmi_get_device_num_in_card via CALL_FUNC. -/
def dcmi_get_device_num_in_card (s : DcmiState) (card_id : Int) : Int :=
  match s.dcmi_get_device_num_in_card_func with
  | none => FUNCTION_NOT_FOUND
  | some f => f card_id

/-- Wrapper dcmi_get_device_logic_id via CALL_FUNC. -/
def dcmi_get_device_logic_id (s : DcmiState) (card_id device_id : Int) : Int :=
  match s.dcmi_get_device_logic_id_func with
  | none => FUNCTION_NOT_FOUND
  | some f => f card_id device_id

/-- Wrapper dcmi_create_vdevice via CALL_FUNC. -/
def dcmi_create_vdevice (s : DcmiState) (card_id device_id : Int) : Int :=
  match s.dcmi_create_vdevice_func with
  | none => FUNCTION_NOT_FOUND
  | some f => f card_id device_id

/-- Wrapper dcmi_set_destroy_vdevice via CALL_FUNC. -/
def dcmi_set_destroy_vdevice (s : DcmiState) (card_id device_id : Int) (vdevid : Nat) : Int :=
  match s.dcmi_set_destroy_vdevice_func with
  | none => FUNCTION_NOT_FOUND
  | some f => f card_id device_id vdevid

/-- Wrapper dcmi_get_device_logicid_from_phyid via CALL_FUNC. -/
def dcmi_get_device_logicid_from_phyid (s : DcmiState) (phyid : Nat) : Int :=
  match s.dcmi_get_device_logicid_from_phyid_func with
  | none => FUNCTION_NOT_FOUND
  | some f => f phyid

/-- Outcomes of the dynamic-loader calls made by dcmiInit_dl: dlopen
(none = load failure; some carries the link_map l_name path reported by
dlinfo), dlinfo success, and one dlsym outcome per symbol (none = the
symbol did not resolve, leaving the pointer NULL — dcmiInit_dl does not
check dlsym results). -/
structure DlWorld where
  dlopenResult : Option String
  dlinfoOk : Bool
  sym_init : Option (Unit → Int)
  sym_get_card_num_list : Option (Int → Int)
  sym_get_device_num_in_card : Option (Int → Int)
  sym_get_device_logic_id : Option (Int → Int → Int)
  sym_create_vdevice : Option (Int → Int → Int)
  sym_set_destroy_vdevice : Option (Int → Int → Nat → Int)
  sym_get_device_logicid_from_phyid : Option (Nat → Int)

/-- dcmiInit_dl of dcmi_interface_api.h: dlopen libdcmi.so (SO_NOT_FOUND
on failure), dlinfo for the on-disk path (SO_NOT_CORRECT on failure),
then assign all seven pointers from dlsym, checking none of them.
Returns the new global state and the status code. -/
def dcmiInit_dl (w : DlWorld) (s : DcmiState) : DcmiState × Int :=
  match w.dlopenResult with
  | none => ({s with dcmiHandle := none}, SO_NOT_FOUND)
  | some path =>
    let s1 := {s with dcmiHandle := some path}
    if ¬ w.dlinfoOk then (s1, SO_NOT_CORRECT)
    else
      ({s1 with
          dcmi_init_func := w.sym_init,
          dcmi_get_card_num_list_func := w.sym_get_card_num_list,
          dcmi_get_device_num_in_card_func := w.sym_get_device_num_in_card,
          dcmi_get_device_logic_id_func := w.sym_get_device_logic_id,
          dcmi_create_vdevice_func := w.sym_create_vdevice,
          dcmi_set_destroy_vdevice_func := w.sym_set_destroy_vdevice,
          dcmi_get_device_logicid_from_phyid_func := w.sym_get_device_logicid_from_phyid},
       DCMI_SUCCESS)

/-! Concrete worlds used to instantiate the oracle parameters. -/

/-- Realpath oracle of a filesystem in which every checked path is
already canonical: realpath succeeds and returns the input unchanged. -/
def idRealpath : String → RealpathOutcome := fun s => .ok s

/-- Realpath oracle of a filesystem in which every checked path is
symlink-free and canonical but its final component does not yet exist:
realpath fails with ENOENT leaving the canonicalised path, equal to the
input, in the buffer. -/
def missingTailRealpath : String → RealpathOutcome := fun s => .fail ENOENT s

/-- Argument-parsing world in which every external call succeeds and
pid_max reads as 32768. -/
def okArgWorld : ArgWorld := ⟨idRealpath, true, some "32768\n"⟩

/-- Preparation world in which every lookup succeeds. -/
def okPrepare : PrepareWorld :=
  ⟨some "/proc/5/ns/mnt", some "/sys/fs/cgroup/devices/docker/c1",
   some "/proc/self/ns/mnt", some 3⟩

/-- Setup world in which every privileged step succeeds. -/
def okSetup : SetupWorld := ⟨okPrepare, true, true, true, true⟩

/-- Setup world in which preparation, the namespace entry and the
mounts succeed but the cgroup configuration step fails. -/
def cgroupFailSetup : SetupWorld := ⟨okPrepare, true, true, false, true⟩

/-- Composition of the pid parser with IsCmdArgsValid, exactly as the
getopt loop of Process composes them: the overall validation verdict on
the pid argument. -/
def pidOverallValid (w : ArgWorld) (args : CmdArgs) (pidStr : String) : Bool :=
  (PidCmdArgParser w args pidStr).2 && IsCmdArgsValid (PidCmdArgParser w args pidStr).1

/-- CmdArgs whose file mount list already holds MAX_MOUNT_NR entries. -/
def fullFilesArgs : CmdArgs := {emptyCmdArgs with files := List.replicate MAX_MOUNT_NR ""}

/-- Loader world in which dlopen of libdcmi.so fails. -/
def noLibWorld : DlWorld := ⟨none, true, none, none, none, none, none, none, none⟩

/-! Theorems.  Each claim of the specification is settled by one
theorem below; helper lemmas precede the theorem that uses them. -/

/-- Helper: the ParseDeviceIDs loop rejects whenever the token count
exceeds the capacity (the index reaches the capacity before the last
token is stored). -/
theorem parseDeviceLoop_none_of_full (cap : Nat) (toks : List String) :
    ∀ idx : Nat, toks ≠ [] → cap < toks.length + idx →
      (parseDeviceLoop cap toks idx).1 = none := by
  induction toks with
  | nil => intro idx h _; exact absurd rfl h
  | cons t ts ih =>
    intro idx _ hlt
    simp only [parseDeviceLoop]
    split
    · rfl
    · rename_i hge
      split
      · rfl
      · split
        · rfl
        · rename_i vs k heq
          cases ts with
          | nil =>
            have h1 : cap < 1 + idx := by simpa using hlt
            omega
          | cons t2 ts2 =>
            have h2 := ih (idx + 1) (by simp) (by
              have := hlt
              simp only [List.length_cons] at this ⊢
              omega)
            rw [heq] at h2
            simp at h2

/-- Helper: the ParseDeviceIDs loop rejects whenever some token sets
the strtoul range-error flag. -/
theorem parseDeviceLoop_none_of_err (cap : Nat) (toks : List String) :
    ∀ idx : Nat, (∃ t ∈ toks, (strtoul10 t).2 = true) →
      (parseDeviceLoop cap toks idx).1 = none := by
  induction toks with
  | nil => rintro idx ⟨t, ht, _⟩; exact absurd ht (List.not_mem_nil t)
  | cons t ts ih =>
    rintro idx ⟨u, hu, herr⟩
    simp only [parseDeviceLoop]
    split
    · rfl
    · split
      · rfl
      · rename_i hok
        split
        · rfl
        · rename_i vs k heq
          have hmem : u ∈ ts := by
            rcases List.mem_cons.mp hu with h | h
            · subst h; exact absurd herr hok
            · exact h
          have h2 := ih (idx + 1) ⟨u, hmem, herr⟩
          rw [heq] at h2
          simp at h2

/-- Claim C6: the whitelist check accepts a candidate mount path
exactly when it is string-equal to one of the four compiled-in entries,
with no shorter-path matching; in particular the driver lib directory
is rejected while lib64 is accepted. -/
theorem whitelist_exact_match :
    (∀ p : String, CheckWhiteList p = true ↔ p ∈ mountWhiteList)
    ∧ CheckWhiteList "/usr/local/Ascend/driver/lib" = false
    ∧ CheckWhiteList "/usr/local/Ascend/driver/lib64" = true := by
  refine ⟨fun p => ?_, by decide, by decide⟩
  simp [CheckWhiteList, List.any_eq_true, beq_iff_eq]

/-- Claim C5: a devices string containing a character that is neither a
digit nor a comma is rejected; "1,2,a" is rejected while "1,2,3" is
accepted and parses to the id list [1, 2, 3]; tokenisation rejects when
the token count exceeds the capacity or when any token overflows the
unsigned-long range. -/
theorem devices_validation :
    (∀ (args : CmdArgs) (arg : String),
      (∃ c ∈ arg.data, isDevChar c = false) → (DevicesCmdArgParser args arg).2 = false)
    ∧ (DevicesCmdArgParser emptyCmdArgs "1,2,a").2 = false
    ∧ (DevicesCmdArgParser emptyCmdArgs "1,2,3").2 = true
    ∧ (ParseDeviceIDs MAX_DEVICE_NR "1,2,3").1 = some [1, 2, 3]
    ∧ (∀ (cap : Nat) (devices : String), cap < (strtokTokens devices).length →
        (ParseDeviceIDs cap devices).1 = none)
    ∧ (∀ (cap : Nat) (devices : String),
        (∃ t ∈ strtokTokens devices, (strtoul10 t).2 = true) →
        (ParseDeviceIDs cap devices).1 = none) := by
  refine ⟨?_, by decide, by decide, by decide, ?_, ?_⟩
  · rintro args arg ⟨c, hc, hbad⟩
    have hall : arg.data.all isDevChar = false := by
      rcases h : arg.data.all isDevChar with _ | _
      · rfl
      · have := List.all_eq_true.mp h c hc
        rw [hbad] at this
        cases this
    simp [DevicesCmdArgParser, hall]
  · intro cap devices h
    have hne : strtokTokens devices ≠ [] := by
      intro h0
      rw [h0] at h
      simp at h
    exact parseDeviceLoop_none_of_full cap (strtokTokens devices) 0 hne (by omega)
  · intro cap devices h
    exact parseDeviceLoop_none_of_err cap (strtokTokens devices) 0 h

/-- Witness for claim C5 at concrete inputs: the bad-character, the
capacity and the overflow rejections each fire. -/
theorem devices_validation_witness :
    (DevicesCmdArgParser emptyCmdArgs "1,2,a").2 = false
    ∧ (ParseDeviceIDs 0 "1").1 = none
    ∧ (ParseDeviceIDs MAX_DEVICE_NR "99999999999999999999").1 = none :=
  ⟨devices_validation.1 emptyCmdArgs "1,2,a" ⟨'a', by decide, by decide⟩,
   devices_validation.2.2.2.2.1 0 "1" (by decide),
   devices_validation.2.2.2.2.2 MAX_DEVICE_NR "99999999999999999999"
     ⟨"99999999999999999999", by decide, by decide⟩⟩

/-- Claim C3: path legality accepts only when the buffer left by
canonicalisation is byte-identical to the input (so any divergence,
including one produced by a symlink component, is rejected); a
canonicalisation failure with errno other than ENOENT always rejects;
and an ENOENT failure whose buffer equals the input — the case of a
symlink-free path whose final component does not yet exist — is
accepted when the length and character checks pass. -/
theorem path_legality_canonical (rp : String → RealpathOutcome) (p r buf : String) (eno : Nat) :
    (rp p = .ok r → CheckFileLegality rp p = true → r = p)
    ∧ (rp p = .fail eno buf → eno ≠ ENOENT → CheckFileLegality rp p = false)
    ∧ (rp p = .fail eno buf → CheckFileLegality rp p = true → buf = p)
    ∧ (0 < p.length → p.length ≤ PATH_MAX → p.data.all IsValidChar = true →
        rp p = .fail ENOENT p → CheckFileLegality rp p = true)
    ∧ (0 < p.length → p.length ≤ PATH_MAX → p.data.all IsValidChar = true →
        rp p = .ok p → CheckFileLegality rp p = true) := by
  refine ⟨?_, ?_, ?_, ?_, ?_⟩
  · intro hrp hleg
    unfold CheckFileLegality at hleg
    rw [hrp] at hleg
    split at hleg
    · simp at hleg
    · split at hleg
      · simp at hleg
      · exact eq_of_beq hleg
  · intro hrp hne
    unfold CheckFileLegality
    rw [hrp]
    split
    · rfl
    · split
      · rfl
      · simp [hne]
  · intro hrp hleg
    unfold CheckFileLegality at hleg
    rw [hrp] at hleg
    split at hleg
    · simp at hleg
    · split at hleg
      · simp at hleg
      · by_cases he : eno = ENOENT
        · simp [he] at hleg
          exact hleg
        · simp [he] at hleg
  · intro hpos hle hall hrp
    have h1 : ¬ (p.length > PATH_MAX) := by omega
    have h2 : ¬ (p.length = 0) := by omega
    unfold CheckFileLegality
    rw [hrp]
    simp [h1, h2, hall]
  · intro hpos hle hall hrp
    have h1 : ¬ (p.length > PATH_MAX) := by omega
    have h2 : ¬ (p.length = 0) := by omega
    unfold CheckFileLegality
    rw [hrp]
    simp [h1, h2, hall]

/-- Witness for claim C3: a canonical existing path is accepted, and a
canonical path whose final component is missing (ENOENT with buffer
equal to the input) is also accepted. -/
theorem path_legality_canonical_witness :
    CheckFileLegality missingTailRealpath "/tmp/x" = true
    ∧ CheckFileLegality idRealpath "/tmp/x" = true :=
  ⟨(path_legality_canonical missingTailRealpath "/tmp/x" "" "" ENOENT).2.2.2.1
      (by decide) (by decide) (by decide) rfl,
   (path_legality_canonical idRealpath "/tmp/x" "" "" ENOENT).2.2.2.2
      (by decide) (by decide) (by decide) rfl⟩

/-- Claim C10: the devices string "," is non-empty and consists only of
separators; it passes the devices parser and overall validation, device
parsing yields the empty id list, and the privileged setup then runs to
completion with no devices to inject. -/
theorem separator_only_devices_accepted :
    ("," : String) ≠ ""
    ∧ (DevicesCmdArgParser emptyCmdArgs ",").2 = true
    ∧ (ParseDeviceIDs MAX_DEVICE_NR ",").1 = some []
    ∧ IsCmdArgsValid ⟨",", "/", 5, "NODRV", [], []⟩ = true
    ∧ (DoPrepare okPrepare ⟨",", "/", 5, "NODRV", [], []⟩).1 =
        some ⟨"/", [], "/proc/5/ns/mnt", "/sys/fs/cgroup/devices/docker/c1", 3, [], []⟩
    ∧ Process okArgWorld okSetup [(.dOpt, ","), (.pOpt, "5"), (.rOpt, "/"), (.oOpt, "NODRV")]
        = (0, [.enterContainerNs, .doMounting, .setupCgroup, .restoreNs, .closeOriginFd]) := by
  refine ⟨by decide, by decide, by decide, by decide, by decide, by decide⟩

/-- Counterexample for claim C1: with mounts succeeded and the cgroup
step failing, SetupContainer returns -1 and closes the saved
descriptor, but the restoring namespace switch never appears in the
attempted actions — the original namespace is not restored on this
path. -/
theorem cgroup_fail_no_restore_cex :
    (SetupContainer cgroupFailSetup ⟨"1", "/", 5, "NODRV", [], []⟩).1 = -1
    ∧ Action.closeOriginFd ∈ (SetupContainer cgroupFailSetup ⟨"1", "/", 5, "NODRV", [], []⟩).2.1
    ∧ Action.restoreNs ∉ (SetupContainer cgroupFailSetup ⟨"1", "/", 5, "NODRV", [], []⟩).2.1 := by
  decide

/-- Claim C1 as amended: whenever preparation, the namespace entry and
the mounts succeed and the cgroup step fails, the result is nonzero and
the saved original-namespace descriptor is closed, but no restoring
namespace switch is attempted before the error propagates. -/
theorem cgroup_fail_behaviour (w : SetupWorld) (args : CmdArgs)
    (hprep : (DoPrepare w.prep args).1.isSome = true)
    (henter : w.enterNsOk = true) (hmount : w.mountOk = true) (hcg : w.cgroupOk = false) :
    (SetupContainer w args).1 = -1
    ∧ (SetupContainer w args).2.1 =
        [.enterContainerNs, .doMounting, .setupCgroup, .closeOriginFd]
    ∧ Action.closeOriginFd ∈ (SetupContainer w args).2.1
    ∧ Action.restoreNs ∉ (SetupContainer w args).2.1 := by
  unfold SetupContainer
  rcases h : (DoPrepare w.prep args).1 with _ | c
  · rw [h] at hprep; simp at hprep
  · simp [henter, hmount, hcg]

/-- Witness for the amended claim C1 at a concrete invocation. -/
theorem cgroup_fail_behaviour_witness :
    (SetupContainer cgroupFailSetup ⟨"1", "/", 5, "NODRV", [], []⟩).1 = -1
    ∧ (SetupContainer cgroupFailSetup ⟨"1", "/", 5, "NODRV", [], []⟩).2.1 =
        [.enterContainerNs, .doMounting, .setupCgroup, .closeOriginFd]
    ∧ Action.closeOriginFd ∈ (SetupContainer cgroupFailSetup ⟨"1", "/", 5, "NODRV", [], []⟩).2.1
    ∧ Action.restoreNs ∉ (SetupContainer cgroupFailSetup ⟨"1", "/", 5, "NODRV", [], []⟩).2.1 :=
  cgroup_fail_behaviour cgroupFailSetup ⟨"1", "/", 5, "NODRV", [], []⟩
    (by decide) rfl rfl rfl

/-- Counterexample for claim C2: the invocation with devices "1,2"
passes validation and preparation succeeds, yet the raw record is
modified by preparation — its devices buffer now reads "1", NUL, "2"
after the in-place strtok_s tokenisation. -/
theorem devices_buffer_mutated_cex :
    (DevicesCmdArgParser emptyCmdArgs "1,2").2 = true
    ∧ IsCmdArgsValid ⟨"1,2", "/", 5, "NODRV", [], []⟩ = true
    ∧ (DoPrepare okPrepare ⟨"1,2", "/", 5, "NODRV", [], []⟩).1.isSome = true
    ∧ (DoPrepare okPrepare ⟨"1,2", "/", 5, "NODRV", [], []⟩).2 ≠ ⟨"1,2", "/", 5, "NODRV", [], []⟩
    ∧ (DoPrepare okPrepare ⟨"1,2", "/", 5, "NODRV", [], []⟩).2.devices =
        String.mk ['1', '\x00', '2'] := by
  decide

/-- Claim C2 as amended: preparation leaves the rootfs, pid, options
and both mount lists of the raw record untouched, but destructively
tokenises the devices buffer in place — on the concrete record with
devices "1,2" the buffer afterwards holds "1", NUL, "2". -/
theorem raw_invocation_frame (w : PrepareWorld) (args : CmdArgs) :
    ((DoPrepare w args).2.rootfs = args.rootfs
     ∧ (DoPrepare w args).2.pid = args.pid
     ∧ (DoPrepare w args).2.options = args.options
     ∧ (DoPrepare w args).2.files = args.files
     ∧ (DoPrepare w args).2.dirs = args.dirs)
    ∧ (DoPrepare okPrepare ⟨"1,2", "/", 5, "NODRV", [], []⟩).2.devices =
        String.mk ['1', '\x00', '2'] := by
  refine ⟨?_, by decide⟩
  unfold DoPrepare
  split
  · exact ⟨rfl, rfl, rfl, rfl, rfl⟩
  · split <;> exact ⟨rfl, rfl, rfl, rfl, rfl⟩

/-- Counterexample for claim C7: the device id 99999999999999 fits in a
64-bit unsigned long, so it passes the devices parser, parses to the
32-bit truncation 276447231 instead of being rejected, and the full
invocation then performs every privileged step and succeeds. -/
theorem overflow_device_id_not_rejected_cex :
    (DevicesCmdArgParser emptyCmdArgs "99999999999999").2 = true
    ∧ (ParseDeviceIDs MAX_DEVICE_NR "99999999999999").1 = some [276447231]
    ∧ Process okArgWorld okSetup
        [(.dOpt, "99999999999999"), (.pOpt, "5"), (.rOpt, "/"), (.oOpt, "NODRV")]
        = (0, [.enterContainerNs, .doMounting, .setupCgroup, .restoreNs, .closeOriginFd]) := by
  decide

/-- Claim C7 as amended: for every invocation in which argument
validation or config preparation fails, the result is nonzero and
neither the namespace entry nor the namespace restore is ever
performed; a genuinely overflowing device id — one exceeding the
unsigned-long range — does fail preparation. -/
theorem failed_validation_no_switch (w : ArgWorld) (sw : SetupWorld)
    (argv : List (ArgKind × String))
    (h : (processArgs w emptyCmdArgs argv).2 < 0
       ∨ IsCmdArgsValid (processArgs w emptyCmdArgs argv).1 = false
       ∨ (DoPrepare sw.prep (processArgs w emptyCmdArgs argv).1).1 = none) :
    ((Process w sw argv).1 = -1
     ∧ Action.enterContainerNs ∉ (Process w sw argv).2
     ∧ Action.restoreNs ∉ (Process w sw argv).2)
    ∧ (ParseDeviceIDs MAX_DEVICE_NR "99999999999999999999").1 = none := by
  refine ⟨?_, by decide⟩
  unfold Process
  by_cases h1 : (processArgs w emptyCmdArgs argv).2 < 0
  · simp [h1]
  · rw [if_neg h1]
    by_cases h2 : IsCmdArgsValid (processArgs w emptyCmdArgs argv).1 = false
    · simp [h2]
    · have h2' : IsCmdArgsValid (processArgs w emptyCmdArgs argv).1 = true := by
        cases hx : IsCmdArgsValid (processArgs w emptyCmdArgs argv).1
        · exact absurd hx h2
        · rfl
      rw [if_neg (by simp [h2'])]
      have h3 : (DoPrepare sw.prep (processArgs w emptyCmdArgs argv).1).1 = none := by
        rcases h with h | h | h
        · exact absurd h h1
        · exact absurd h h2
        · exact h
      unfold SetupContainer
      rw [h3]
      simp

/-- Witness for the amended claim C7: an invocation whose devices
string fails validation returns -1 having attempted no namespace
action. -/
theorem failed_validation_no_switch_witness :
    ((Process okArgWorld okSetup [(.dOpt, "1,2,a")]).1 = -1
     ∧ Action.enterContainerNs ∉ (Process okArgWorld okSetup [(.dOpt, "1,2,a")]).2
     ∧ Action.restoreNs ∉ (Process okArgWorld okSetup [(.dOpt, "1,2,a")]).2)
    ∧ (ParseDeviceIDs MAX_DEVICE_NR "99999999999999999999").1 = none :=
  failed_validation_no_switch okArgWorld okSetup [(.dOpt, "1,2,a")] (Or.inl (by decide))

/-- Claim C8: both mount-list parsers preserve the invariant that the
count never exceeds the capacity, and an append attempted on a full
list fails closed — the list is unchanged, the parser reports failure,
and the surrounding argument loop aborts the invocation with -1. -/
theorem mount_list_bounded (w : ArgWorld) (args : CmdArgs) (arg : String) :
    (args.files.length ≤ MAX_MOUNT_NR →
      (MountFileCmdArgParser w.rp args arg).1.files.length ≤ MAX_MOUNT_NR)
    ∧ (args.dirs.length ≤ MAX_MOUNT_NR →
      (MountDirCmdArgParser w.rp args arg).1.dirs.length ≤ MAX_MOUNT_NR)
    ∧ (args.files.length = MAX_MOUNT_NR →
        MountFileCmdArgParser w.rp args arg = (args, false)
        ∧ ∀ rest, processArgs w args ((ArgKind.fOpt, arg) :: rest) = (args, -1))
    ∧ (args.dirs.length = MAX_MOUNT_NR →
        MountDirCmdArgParser w.rp args arg = (args, false)
        ∧ ∀ rest, processArgs w args ((ArgKind.iOpt, arg) :: rest) = (args, -1)) := by
  refine ⟨?_, ?_, ?_, ?_⟩
  · intro hle
    unfold MountFileCmdArgParser
    split
    · simpa using hle
    · rename_i hne
      split
      · simp
        omega
      · split <;> (simp; omega)
  · intro hle
    unfold MountDirCmdArgParser
    split
    · simpa using hle
    · rename_i hne
      split
      · simp
        omega
      · split <;> (simp; omega)
  · intro hfull
    have hp : MountFileCmdArgParser w.rp args arg = (args, false) := by
      unfold MountFileCmdArgParser
      rw [if_pos hfull]
    refine ⟨hp, fun rest => ?_⟩
    simp [processArgs, ParseOneCmdArg, hp]
  · intro hfull
    have hp : MountDirCmdArgParser w.rp args arg = (args, false) := by
      unfold MountDirCmdArgParser
      rw [if_pos hfull]
    refine ⟨hp, fun rest => ?_⟩
    simp [processArgs, ParseOneCmdArg, hp]

/-- Witness for claim C8: an append on a full file list is rejected
with the list unchanged, and an append on an empty list keeps the count
within capacity. -/
theorem mount_list_bounded_witness :
    MountFileCmdArgParser okArgWorld.rp fullFilesArgs "/usr/local/dcmi" = (fullFilesArgs, false)
    ∧ (MountFileCmdArgParser okArgWorld.rp emptyCmdArgs "/usr/local/dcmi").1.files.length
        ≤ MAX_MOUNT_NR :=
  ⟨((mount_list_bounded okArgWorld fullFilesArgs "/usr/local/dcmi").2.2.1 (by decide)).1,
   (mount_list_bounded okArgWorld emptyCmdArgs "/usr/local/dcmi").1 (by decide)⟩

/-- Helper: whatever branch the pid parser takes, the record it returns
is the input with the pid field set to the converted argument. -/
theorem pidCmdArgParser_fst (w : ArgWorld) (args : CmdArgs) (arg : String) :
    (PidCmdArgParser w args arg).1 = {args with pid := toInt32 (strtol10 arg).1} := by
  unfold PidCmdArgParser
  split
  · rfl
  · split
    · rfl
    · split
      · rfl
      · split
        · rfl
        · split <;> rfl

/-- Claim C4: overall validation rejects a nonpositive pid, rejects a
pid at or above the pid_max value read from the system source, accepts
a pid strictly between zero and that value when the remaining arguments
are present, and treats a failed read of the source, a failed external
check, or a non-numeric source as fatal. -/
theorem pid_validation (w : ArgWorld) (args : CmdArgs) (pidStr raw : String)
    (hread : w.pidMaxRead = some raw)
    (hdig : (stripNewline raw).data.all Char.isDigit = true) :
    (toInt32 (strtol10 pidStr).1 ≤ 0 → pidOverallValid w args pidStr = false)
    ∧ ((strtol10 (stripNewline raw)).1 ≤ toInt32 (strtol10 pidStr).1 →
        pidOverallValid w args pidStr = false)
    ∧ (w.checkExternalOk = true → (strtol10 pidStr).2 = false →
        0 < toInt32 (strtol10 pidStr).1 →
        toInt32 (strtol10 pidStr).1 < (strtol10 (stripNewline raw)).1 →
        0 < args.devices.length → 0 < args.rootfs.length →
        pidOverallValid w args pidStr = true)
    ∧ (∀ w' : ArgWorld, w'.pidMaxRead = none → (PidCmdArgParser w' args pidStr).2 = false)
    ∧ (∀ w' : ArgWorld, w'.checkExternalOk = false →
        (PidCmdArgParser w' args pidStr).2 = false)
    ∧ (∀ (w' : ArgWorld) (raw' : String), w'.pidMaxRead = some raw' →
        (stripNewline raw').data.all Char.isDigit = false →
        (PidCmdArgParser w' args pidStr).2 = false) := by
  refine ⟨?_, ?_, ?_, ?_, ?_, ?_⟩
  · intro hle
    have hval : IsCmdArgsValid (PidCmdArgParser w args pidStr).1 = false := by
      rw [pidCmdArgParser_fst]
      have hn : ¬ (0 < toInt32 (strtol10 pidStr).1) := not_lt.mpr hle
      simp [IsCmdArgsValid, hn]
    simp [pidOverallValid, hval]
  · intro hge
    unfold pidOverallValid
    rcases hb : (PidCmdArgParser w args pidStr).2 with _ | _
    · simp
    · exfalso
      unfold PidCmdArgParser at hb
      split at hb
      · simp at hb
      · split at hb
        · simp at hb
        · rename_i raw2 hraw2
          rw [hread] at hraw2
          injection hraw2 with h
          subst h
          split at hb
          · simp at hb
          · split at hb
            · simp at hb
            · rename_i hcond
              push_neg at hcond
              omega
  · intro hck herr h0 hlt hdev hroot
    have hnot : ¬ (toInt32 (strtol10 pidStr).1 < 0 ∨
        toInt32 (strtol10 pidStr).1 ≥ (strtol10 (stripNewline raw)).1) := by
      push_neg
      exact ⟨by omega, by omega⟩
    simp [pidOverallValid, PidCmdArgParser, hread, hck, hdig, hnot, herr,
      IsCmdArgsValid, hdev, hroot, h0]
  · intro w' h
    unfold PidCmdArgParser
    split
    · rfl
    · split
      · rfl
      · rename_i raw2 hraw2
        rw [h] at hraw2
        cases hraw2
  · intro w' h
    unfold PidCmdArgParser
    simp [h]
  · intro w' raw' hsome hnd
    unfold PidCmdArgParser
    split
    · rfl
    · split
      · rfl
      · rename_i raw2 hraw2
        rw [hsome] at hraw2
        injection hraw2 with h
        subst h
        rw [if_pos (by simp [hnd])]

/-- Witness for claim C4 at concrete pids against pid_max 32768: 5 is
accepted; 0, -7 and 32768 are rejected. -/
theorem pid_validation_witness :
    pidOverallValid okArgWorld ⟨"1", "/", 0, "", [], []⟩ "5" = true
    ∧ pidOverallValid okArgWorld ⟨"1", "/", 0, "", [], []⟩ "0" = false
    ∧ pidOverallValid okArgWorld ⟨"1", "/", 0, "", [], []⟩ "-7" = false
    ∧ pidOverallValid okArgWorld ⟨"1", "/", 0, "", [], []⟩ "32768" = false := by
  have t := pid_validation okArgWorld ⟨"1", "/", 0, "", [], []⟩
  refine ⟨(t "5" "32768\n" rfl (by decide)).2.2.1 rfl (by decide) (by decide) (by decide)
      (by decide) (by decide),
    (t "0" "32768\n" rfl (by decide)).1 (by decide),
    (t "-7" "32768\n" rfl (by decide)).1 (by decide),
    (t "32768" "32768\n" rfl (by decide)).2.1 (by decide)⟩

/-- Claim C9: every wrapper whose function pointer is unresolved
returns FUNCTION_NOT_FOUND instead of calling through NULL; a dlopen
failure makes dcmiInit_dl return SO_NOT_FOUND and a dlinfo failure
SO_NOT_CORRECT, in both cases leaving every pointer as it was (so still
unresolved from the initial state); on success the pointers take
exactly the dlsym results, so an unresolved symbol again yields
FUNCTION_NOT_FOUND on call; and the three error codes are pairwise
distinct and distinct from success. -/
theorem dcmi_binding_failure_safe (w : DlWorld) (s : DcmiState) :
    (∀ s' : DcmiState, s'.dcmi_init_func = none → dcmi_init s' = FUNCTION_NOT_FOUND)
    ∧ (∀ (s' : DcmiState) (x : Int), s'.dcmi_get_card_num_list_func = none →
        dcmi_get_card_num_list s' x = FUNCTION_NOT_FOUND)
    ∧ (∀ (s' : DcmiState) (x : Int), s'.dcmi_get_device_num_in_card_func = none →
        dcmi_get_device_num_in_card s' x = FUNCTION_NOT_FOUND)
    ∧ (∀ (s' : DcmiState) (x y : Int), s'.dcmi_get_device_logic_id_func = none →
        dcmi_get_device_logic_id s' x y = FUNCTION_NOT_FOUND)
    ∧ (∀ (s' : DcmiState) (x y : Int), s'.dcmi_create_vdevice_func = none →
        dcmi_create_vdevice s' x y = FUNCTION_NOT_FOUND)
    ∧ (∀ (s' : DcmiState) (x y : Int) (v : Nat), s'.dcmi_set_destroy_vdevice_func = none →
        dcmi_set_destroy_vdevice s' x y v = FUNCTION_NOT_FOUND)
    ∧ (∀ (s' : DcmiState) (v : Nat), s'.dcmi_get_device_logicid_from_phyid_func = none →
        dcmi_get_device_logicid_from_phyid s' v = FUNCTION_NOT_FOUND)
    ∧ (w.dlopenResult = none →
        (dcmiInit_dl w s).2 = SO_NOT_FOUND
        ∧ (dcmiInit_dl w s).1.dcmi_init_func = s.dcmi_init_func
        ∧ (dcmiInit_dl w s).1.dcmi_get_card_num_list_func = s.dcmi_get_card_num_list_func
        ∧ (dcmiInit_dl w s).1.dcmi_get_device_num_in_card_func
            = s.dcmi_get_device_num_in_card_func
        ∧ (dcmiInit_dl w s).1.dcmi_get_device_logic_id_func = s.dcmi_get_device_logic_id_func
        ∧ (dcmiInit_dl w s).1.dcmi_create_vdevice_func = s.dcmi_create_vdevice_func
        ∧ (dcmiInit_dl w s).1.dcmi_set_destroy_vdevice_func = s.dcmi_set_destroy_vdevice_func
        ∧ (dcmiInit_dl w s).1.dcmi_get_device_logicid_from_phyid_func
            = s.dcmi_get_device_logicid_from_phyid_func)
    ∧ (∀ p, w.dlopenResult = some p → w.dlinfoOk = false →
        (dcmiInit_dl w s).2 = SO_NOT_CORRECT
        ∧ (dcmiInit_dl w s).1.dcmi_init_func = s.dcmi_init_func
        ∧ (dcmiInit_dl w s).1.dcmi_get_card_num_list_func = s.dcmi_get_card_num_list_func
        ∧ (dcmiInit_dl w s).1.dcmi_get_device_num_in_card_func
            = s.dcmi_get_device_num_in_card_func
        ∧ (dcmiInit_dl w s).1.dcmi_get_device_logic_id_func = s.dcmi_get_device_logic_id_func
        ∧ (dcmiInit_dl w s).1.dcmi_create_vdevice_func = s.dcmi_create_vdevice_func
        ∧ (dcmiInit_dl w s).1.dcmi_set_destroy_vdevice_func = s.dcmi_set_destroy_vdevice_func
        ∧ (dcmiInit_dl w s).1.dcmi_get_device_logicid_from_phyid_func
            = s.dcmi_get_device_logicid_from_phyid_func)
    ∧ (∀ p, w.dlopenResult = some p → w.dlinfoOk = true →
        (dcmiInit_dl w s).2 = DCMI_SUCCESS
        ∧ (dcmiInit_dl w s).1.dcmi_init_func = w.sym_init
        ∧ (dcmiInit_dl w s).1.dcmi_get_card_num_list_func = w.sym_get_card_num_list
        ∧ (dcmiInit_dl w s).1.dcmi_get_device_num_in_card_func = w.sym_get_device_num_in_card
        ∧ (dcmiInit_dl w s).1.dcmi_get_device_logic_id_func = w.sym_get_device_logic_id
        ∧ (dcmiInit_dl w s).1.dcmi_create_vdevice_func = w.sym_create_vdevice
        ∧ (dcmiInit_dl w s).1.dcmi_set_destroy_vdevice_func = w.sym_set_destroy_vdevice
        ∧ (dcmiInit_dl w s).1.dcmi_get_device_logicid_from_phyid_func
            = w.sym_get_device_logicid_from_phyid)
    ∧ (SO_NOT_FOUND ≠ DCMI_SUCCESS ∧ SO_NOT_CORRECT ≠ DCMI_SUCCESS
        ∧ FUNCTION_NOT_FOUND ≠ DCMI_SUCCESS ∧ SO_NOT_FOUND ≠ SO_NOT_CORRECT
        ∧ SO_NOT_FOUND ≠ FUNCTION_NOT_FOUND ∧ SO_NOT_CORRECT ≠ FUNCTION_NOT_FOUND) := by
  refine ⟨?_, ?_, ?_, ?_, ?_, ?_, ?_, ?_, ?_, ?_, by decide⟩
  · intro s' h; simp [dcmi_init, h]
  · intro s' x h; simp [dcmi_get_card_num_list, h]
  · intro s' x h; simp [dcmi_get_device_num_in_card, h]
  · intro s' x y h; simp [dcmi_get_device_logic_id, h]
  · intro s' x y h; simp [dcmi_create_vdevice, h]
  · intro s' x y v h; simp [dcmi_set_destroy_vdevice, h]
  · intro s' v h; simp [dcmi_get_device_logicid_from_phyid, h]
  · intro h
    simp [dcmiInit_dl, h]
  · intro p h1 h2
    simp [dcmiInit_dl, h1, h2]
  · intro p h1 h2
    simp [dcmiInit_dl, h1, h2]

/-- Witness for claim C9: with dlopen failing, dcmiInit_dl reports
SO_NOT_FOUND and a subsequent wrapper call reports
FUNCTION_NOT_FOUND. -/
theorem dcmi_binding_failure_safe_witness :
    (dcmiInit_dl noLibWorld initialDcmiState).2 = SO_NOT_FOUND
    ∧ dcmi_init (dcmiInit_dl noLibWorld initialDcmiState).1 = FUNCTION_NOT_FOUND := by
  have t := dcmi_binding_failure_safe noLibWorld initialDcmiState
  exact ⟨(t.2.2.2.2.2.2.2.1 rfl).1,
    t.1 _ ((t.2.2.2.2.2.2.2.1 rfl).2.1.trans rfl)⟩

end AscendHook
